import Mathlib

/-!
Shallow embedding of the ai-teaching-assistant backend core
(`backend/risk_engine.py`, `backend/claude_service.py`, `backend/main.py`)
together with theorems settling the specified properties.

Modelling conventions:
* Python floats (assignment scores, delays) are modelled as rationals.
* Python ints are modelled as `Int` (or `Nat` where the source guarantees
  non-negativity, e.g. loop counters).
* `datetime.now() - student.last_active` is modelled by passing the current
  day as an integer parameter `now` and storing `last_active` as an integer
  day, so `days_inactive = now - student.last_active`.
* The nondeterministic jitter of the backoff computation is modelled by an
  explicit `jitter` parameter.
-/

namespace Backend

/-- Risk level enumeration (`models.RiskLevel`). -/
inductive RiskLevel where
  | LOW
  | MEDIUM
  | HIGH
deriving DecidableEq, Repr

/-- Assignment record (`models.Assignment`); `submitted_at` is a timestamp
modelled as an integer day. -/
structure Assignment where
  id : String
  name : String
  score : ℚ
  attempts : Int
  time_spent_minutes : Int
  topics : List String
  submitted_at : Int
deriving DecidableEq, Repr

/-- Student record (`models.Student`); `last_active` is a timestamp modelled
as an integer day.  The derived fields (`risk_level`, `risk_score`,
`risk_reasons`, `struggling_topics`) are stored data recomputed by the risk
engine. -/
structure Student where
  id : String
  name : String
  email : String
  course_id : String
  last_active : Int
  risk_level : RiskLevel
  risk_score : Int
  risk_reasons : List String
  assignments : List Assignment
  struggling_topics : List String
deriving DecidableEq, Repr

/-- `assignments[-4:]` mapped to scores: scores of the last (at most) four
assignments, as computed at `risk_engine.py:18`. -/
def recent_grades_of (assignments : List Assignment) : List ℚ :=
  (assignments.drop (assignments.length - 4)).map Assignment.score

/-- The scan of `risk_engine.is_declining`'s loop: walking the list with the
previous grade at hand, return `false` as soon as a grade exceeds the
previous one. -/
def no_increase_from : ℚ → List ℚ → Bool
  | _, [] => true
  | prev, g :: rest => if prev < g then false else no_increase_from g rest

/-- `risk_engine.is_declining`: `false` for fewer than 3 grades, otherwise
true iff no grade is above its predecessor. -/
def is_declining (grades : List ℚ) : Bool :=
  if grades.length < 3 then false
  else
    match grades with
    | [] => true
    | g :: rest => no_increase_from g rest

/-- `risk_engine.calculate_risk_score`: additive point system over five
clauses, result clamped with `min score 100`.  Each Python
`score += n; reasons.append(tag)` under a condition is rendered as a pair of
`if`s on the same condition (one for the points, one for the tag). -/
def calculate_risk_score (student : Student) (now : Int) : Int × List String :=
  match student.assignments with
  | [] => (0, [])
  | a0 :: rest =>
    let assignments := a0 :: rest
    let recent_grades := recent_grades_of assignments
    let latest_grade := recent_grades.getLastD 100
    let latest := assignments.getLastD a0
    let declining := 3 ≤ recent_grades.length ∧ is_declining recent_grades = true
    let days_inactive := now - student.last_active
    let class_avg_time : Int := 60
    let score : Int :=
      (if declining then 20 else 0) +
      (if latest_grade < 60 then 25 else if latest_grade < 70 then 15 else 0) +
      (if 5 ≤ latest.attempts then 15 else if 3 ≤ latest.attempts then 10 else 0) +
      (if 7 < days_inactive then 15 else if 5 < days_inactive then 10 else 0) +
      (if class_avg_time * 2 < latest.time_spent_minutes then 10 else 0)
    let reasons : List String :=
      (if declining then ["declining_grades"] else []) ++
      (if latest_grade < 60 then ["grade_below_60"]
        else if latest_grade < 70 then ["grade_below_70"] else []) ++
      (if 5 ≤ latest.attempts then ["multiple_attempts_5plus"]
        else if 3 ≤ latest.attempts then ["multiple_attempts_3plus"] else []) ++
      (if 7 < days_inactive then ["inactive_7plus_days"]
        else if 5 < days_inactive then ["inactive_5plus_days"] else []) ++
      (if class_avg_time * 2 < latest.time_spent_minutes then ["excessive_time"] else [])
    (min score 100, reasons)

/-- `risk_engine.get_risk_level`: threshold mapping checked high-to-low. -/
def get_risk_level (risk_score : Int) : RiskLevel :=
  if 41 ≤ risk_score then RiskLevel.HIGH
  else if 21 ≤ risk_score then RiskLevel.MEDIUM
  else RiskLevel.LOW

/-- One step of building the insertion-ordered `topic_scores` dict of
`risk_engine.analyze_struggling_topics`: append the score to an existing
key's list, or append a fresh key at the end. -/
def insert_topic_score : List (String × List ℚ) → String → ℚ → List (String × List ℚ)
  | [], t, s => [(t, [s])]
  | (k, v) :: rest, t, s =>
    if k = t then (k, v ++ [s]) :: rest
    else (k, v) :: insert_topic_score rest t s

/-- The `topic_scores` dict of `risk_engine.analyze_struggling_topics`,
built by the nested loops over assignments and their topic tags. -/
def topic_scores_of (assignments : List Assignment) : List (String × List ℚ) :=
  assignments.foldl
    (fun m a => a.topics.foldl (fun m2 t => insert_topic_score m2 t a.score) m) []

/-- `risk_engine.analyze_struggling_topics`: topics whose mean collected
score is strictly below 70, in dict iteration order. -/
def analyze_struggling_topics (student : Student) : List String :=
  ((topic_scores_of student.assignments).filter
    (fun p => p.2.sum / (p.2.length : ℚ) < 70)).map Prod.fst

section RiskTheorems

/-- C6: `get_risk_level` returns HIGH iff the score is at least 41, MEDIUM
iff it lies in `[21, 40]`, and LOW iff it is at most 20. -/
theorem get_risk_level_tiers (s : Int) :
    (get_risk_level s = RiskLevel.HIGH ↔ 41 ≤ s) ∧
    (get_risk_level s = RiskLevel.MEDIUM ↔ 21 ≤ s ∧ s ≤ 40) ∧
    (get_risk_level s = RiskLevel.LOW ↔ s ≤ 20) := by
  unfold get_risk_level
  split_ifs with h1 h2 <;> refine ⟨?_, ?_, ?_⟩ <;> simp <;> omega

lemma ite_between (c : Prop) [Decidable c] (n : Int) (hn : 0 ≤ n) :
    0 ≤ (if c then n else 0) ∧ (if c then n else 0) ≤ n := by
  split <;> omega

lemma ite2_between (c1 c2 : Prop) [Decidable c1] [Decidable c2]
    (n1 n2 : Int) (h2 : 0 ≤ n2) (h12 : n2 ≤ n1) :
    0 ≤ (if c1 then n1 else if c2 then n2 else 0) ∧
    (if c1 then n1 else if c2 then n2 else 0) ≤ n1 := by
  split_ifs <;> omega

/-- C7: the risk score is always within `[0, 100]` (the clause sum is capped
by `min _ 100`), and a student with no assignments yields score 0 with an
empty reasons list. -/
theorem risk_score_bounds (student : Student) (now : Int) :
    0 ≤ (calculate_risk_score student now).1 ∧
    (calculate_risk_score student now).1 ≤ 100 ∧
    (student.assignments = [] → calculate_risk_score student now = (0, [])) := by
  rcases h : student.assignments with _ | ⟨a0, rest⟩
  · simp [calculate_risk_score, h]
  · refine ⟨?_, ?_, fun he => absurd he (by simp)⟩ <;>
      simp only [calculate_risk_score, h]
    · refine le_min ?_ (by norm_num)
      have b1 := ite_between
        (3 ≤ (recent_grades_of (a0 :: rest)).length ∧
          is_declining (recent_grades_of (a0 :: rest)) = true) 20 (by norm_num)
      have b2 := ite2_between ((recent_grades_of (a0 :: rest)).getLastD 100 < 60)
        ((recent_grades_of (a0 :: rest)).getLastD 100 < 70)
        25 15 (by norm_num) (by norm_num)
      have b3 := ite2_between (5 ≤ ((a0 :: rest).getLastD a0).attempts)
        (3 ≤ ((a0 :: rest).getLastD a0).attempts)
        15 10 (by norm_num) (by norm_num)
      have b4 := ite2_between (7 < now - student.last_active)
        (5 < now - student.last_active)
        15 10 (by norm_num) (by norm_num)
      have b5 := ite_between ((60 : Int) * 2 < ((a0 :: rest).getLastD a0).time_spent_minutes)
        10 (by norm_num)
      omega
    · exact min_le_right _ _

lemma no_increase_from_iff (p : ℚ) (l : List ℚ) :
    no_increase_from p l = true ↔ List.Chain' (fun a b => b ≤ a) (p :: l) := by
  induction l generalizing p with
  | nil => simp [no_increase_from]
  | cons g rest ih =>
    rw [no_increase_from, List.chain'_cons]
    by_cases h : p < g
    · simp [if_pos h, not_le.mpr h]
    · simp [if_neg h, ih, not_lt.mp h]

lemma is_declining_iff (g : List ℚ) (h : 3 ≤ g.length) :
    is_declining g = true ↔ List.Chain' (fun a b => b ≤ a) g := by
  match g with
  | [] => simp at h
  | x :: rest =>
    rw [is_declining, if_neg (not_lt.mpr h)]
    exact no_increase_from_iff x rest

lemma mem_ite_singleton {α : Type} (a b : α) (c : Prop) [Decidable c] :
    a ∈ (if c then [b] else []) ↔ c ∧ a = b := by
  split <;> simp_all

lemma mem_ite2_singleton {α : Type} (a b1 b2 : α) (c1 c2 : Prop)
    [Decidable c1] [Decidable c2] :
    a ∈ (if c1 then [b1] else if c2 then [b2] else []) ↔
      (c1 ∧ a = b1) ∨ (¬ c1 ∧ c2 ∧ a = b2) := by
  split_ifs <;> simp_all

/-- C8: the `declining_grades` reason is reported iff at least 3 recent
grades (of the last at most 4 assignments) are available and they are
monotonically non-increasing; with fewer than 3 assignments it never
fires. -/
theorem declining_flag_iff (student : Student) (now : Int) :
    ("declining_grades" ∈ (calculate_risk_score student now).2 ↔
      3 ≤ (recent_grades_of student.assignments).length ∧
      List.Chain' (fun a b => b ≤ a) (recent_grades_of student.assignments)) ∧
    (student.assignments.length < 3 →
      "declining_grades" ∉ (calculate_risk_score student now).2) := by
  have hmem : "declining_grades" ∈ (calculate_risk_score student now).2 ↔
      3 ≤ (recent_grades_of student.assignments).length ∧
      is_declining (recent_grades_of student.assignments) = true := by
    rcases h : student.assignments with _ | ⟨a0, rest⟩
    · simp [calculate_risk_score, h, recent_grades_of]
    · simp only [calculate_risk_score, h]
      simp [List.mem_append, mem_ite_singleton, mem_ite2_singleton]
  refine ⟨hmem.trans (and_congr_right fun hlen => is_declining_iff _ hlen),
    fun hlen => ?_⟩
  rw [hmem]
  rintro ⟨h3, -⟩
  simp only [recent_grades_of, List.length_map, List.length_drop] at h3
  omega

end RiskTheorems

section StrugglingTopics

/-- All `(topic, score)` contributions in traversal order: the nested loops
of `analyze_struggling_topics` visit assignments in order and, within each
assignment, its topic tags in order. -/
def topic_pairs (assignments : List Assignment) : List (String × ℚ) :=
  assignments.flatMap (fun a => a.topics.map (fun t => (t, a.score)))

/-- Folding all contribution pairs into the insertion-ordered dict. -/
def build_topic_scores (ps : List (String × ℚ)) : List (String × List ℚ) :=
  ps.foldl (fun m p => insert_topic_score m p.1 p.2) []

/-- The scores recorded for key `t` by the contribution pairs `ps`. -/
def scores_for (ps : List (String × ℚ)) (t : String) : List ℚ :=
  (ps.filter (fun p => p.1 = t)).map Prod.snd

/-- Key order of an insertion-ordered dict: first occurrence of each key. -/
def first_occurrences : List String → List String
  | [] => []
  | t :: ts => t :: (first_occurrences ts).filter (fun u => u ≠ t)

/-- Scores contributed to topic `t`, phrased as the spec does: every
assignment listing `t` among its topics contributes its score. -/
def topic_scores_spec (student : Student) (t : String) : List ℚ :=
  (student.assignments.filter (fun a => t ∈ a.topics)).map Assignment.score

lemma mem_first_occurrences (u : String) (l : List String) :
    u ∈ first_occurrences l ↔ u ∈ l := by
  induction l with
  | nil => simp [first_occurrences]
  | cons t ts ih =>
    by_cases h : u = t
    · simp [first_occurrences, h]
    · simp [first_occurrences, h, ih]

lemma nodup_first_occurrences (l : List String) : (first_occurrences l).Nodup := by
  induction l with
  | nil => simp [first_occurrences]
  | cons t ts ih =>
    simp only [first_occurrences, List.nodup_cons]
    refine ⟨fun hmem => ?_, ih.filter _⟩
    have h2 := (List.mem_filter.mp hmem).2
    simp at h2

lemma first_occurrences_snoc (l : List String) (a : String) :
    first_occurrences (l ++ [a]) =
      if a ∈ l then first_occurrences l else first_occurrences l ++ [a] := by
  induction l with
  | nil => simp [first_occurrences]
  | cons t ts ih =>
    by_cases hal : a ∈ ts
    · simp [first_occurrences, ih, hal, List.mem_cons]
    · by_cases hat : a = t
      · subst hat
        simp [first_occurrences, ih, hal, List.filter_append]
      · simp [first_occurrences, ih, hal, hat, Ne.symm hat, List.filter_append]

lemma insert_topic_score_canonical (ks : List String) (f : String → List ℚ)
    (t : String) (s : ℚ) (hnd : ks.Nodup) :
    insert_topic_score (ks.map (fun u => (u, f u))) t s =
      if t ∈ ks then ks.map (fun u => (u, if u = t then f u ++ [s] else f u))
      else ks.map (fun u => (u, f u)) ++ [(t, [s])] := by
  induction ks with
  | nil => simp [insert_topic_score]
  | cons k ks ih =>
    rcases List.nodup_cons.mp hnd with ⟨hk, hnd2⟩
    by_cases hkt : k = t
    · subst hkt
      rw [List.map_cons, insert_topic_score, if_pos rfl,
        if_pos (List.mem_cons_self k ks), List.map_cons, if_pos rfl]
      congr 1
      apply List.map_congr_left
      intro u hu
      have hut : ¬ (u = k) := fun he => hk (he ▸ hu)
      simp [hut]
    · have htk : ¬ t = k := Ne.symm hkt
      rw [List.map_cons, insert_topic_score, if_neg hkt, ih hnd2]
      by_cases hts : t ∈ ks
      · rw [if_pos hts, if_pos (List.mem_cons_of_mem k hts), List.map_cons,
          if_neg hkt]
      · rw [if_neg hts, if_neg (by simp [List.mem_cons, hts, htk])]
        simp

lemma scores_for_snoc (ps : List (String × ℚ)) (t u : String) (s : ℚ) :
    scores_for (ps ++ [(t, s)]) u =
      scores_for ps u ++ (if t = u then [s] else []) := by
  by_cases h : t = u <;>
    simp [scores_for, List.filter_append, List.filter_cons, h]

lemma scores_for_not_mem (ps : List (String × ℚ)) (t : String)
    (h : t ∉ ps.map Prod.fst) : scores_for ps t = [] := by
  have hnil : ps.filter (fun p => p.1 = t) = [] := by
    rw [List.filter_eq_nil_iff]
    intro p hp
    simp only [decide_eq_true_eq]
    intro he
    exact h (he ▸ List.mem_map_of_mem Prod.fst hp)
  simp [scores_for, hnil]

lemma topic_scores_of_eq_build (assignments : List Assignment) :
    topic_scores_of assignments = build_topic_scores (topic_pairs assignments) := by
  have key : ∀ (as : List Assignment) (m : List (String × List ℚ)),
      as.foldl (fun m1 a => a.topics.foldl (fun m2 t => insert_topic_score m2 t a.score) m1) m
        = (topic_pairs as).foldl (fun m1 p => insert_topic_score m1 p.1 p.2) m := by
    intro as
    induction as with
    | nil => intro m; simp [topic_pairs]
    | cons a as ih =>
      intro m
      have hsplit : topic_pairs (a :: as)
          = (a.topics.map fun t => (t, a.score)) ++ topic_pairs as :=
        List.flatMap_cons a as _
      rw [List.foldl_cons, ih, hsplit, List.foldl_append, List.foldl_map]
  exact key _ []

lemma build_topic_scores_spec (ps : List (String × ℚ)) :
    build_topic_scores ps =
      (first_occurrences (ps.map Prod.fst)).map (fun t => (t, scores_for ps t)) := by
  induction ps using List.reverseRecOn with
  | nil => rfl
  | append_singleton ps p ih =>
    rcases p with ⟨t, s⟩
    have hb : build_topic_scores (ps ++ [(t, s)]) =
        insert_topic_score (build_topic_scores ps) t s := by
      simp [build_topic_scores, List.foldl_append]
    rw [hb, ih,
      insert_topic_score_canonical _ _ _ _ (nodup_first_occurrences _)]
    simp only [List.map_append, List.map_cons, List.map_nil]
    rw [first_occurrences_snoc]
    by_cases hmem : t ∈ ps.map Prod.fst
    · rw [if_pos ((mem_first_occurrences _ _).mpr hmem), if_pos hmem]
      apply List.map_congr_left
      intro u hu
      by_cases hut : u = t
      · subst hut
        simp [scores_for_snoc]
      · have htu : ¬ t = u := Ne.symm hut
        simp [scores_for_snoc, hut, htu]
    · rw [if_neg (fun hc => hmem ((mem_first_occurrences _ _).mp hc)),
        if_neg hmem, List.map_append]
      congr 1
      · apply List.map_congr_left
        intro u hu
        have hut : ¬ (u = t) :=
          fun he => hmem (he ▸ (mem_first_occurrences _ _).mp hu)
        have htu : ¬ t = u := Ne.symm hut
        simp [scores_for_snoc, htu]
      · simp [scores_for_snoc, scores_for_not_mem ps t hmem]

lemma topic_pairs_fst (assignments : List Assignment) :
    (topic_pairs assignments).map Prod.fst = assignments.flatMap Assignment.topics := by
  rw [topic_pairs, List.map_flatMap]
  apply List.flatMap_congr
  intro a ha
  rw [List.map_map]
  have hco : (Prod.fst ∘ fun t : String => (t, a.score)) = id := rfl
  rw [hco, List.map_id]

lemma nodup_filter_eq (l : List String) (t : String) (h : l.Nodup) :
    l.filter (fun u => u = t) = if t ∈ l then [t] else [] := by
  induction l with
  | nil => simp
  | cons k l ih =>
    rcases List.nodup_cons.mp h with ⟨hk, h2⟩
    by_cases hkt : k = t
    · subst hkt
      simp [List.filter_cons, ih h2, hk]
    · have htk : ¬ t = k := Ne.symm hkt
      simp [List.filter_cons, hkt, ih h2, htk]

lemma scores_for_topic_pairs (assignments : List Assignment) (t : String)
    (hnd : ∀ a ∈ assignments, a.topics.Nodup) :
    scores_for (topic_pairs assignments) t =
      (assignments.filter (fun a => t ∈ a.topics)).map Assignment.score := by
  induction assignments with
  | nil => rfl
  | cons a as ih =>
    have hnda : a.topics.Nodup := hnd a (List.mem_cons_self a as)
    have hnd2 : ∀ b ∈ as, b.topics.Nodup :=
      fun b hb => hnd b (List.mem_cons_of_mem a hb)
    have happ : scores_for (topic_pairs (a :: as)) t =
        scores_for (a.topics.map (fun u => (u, a.score))) t
          ++ scores_for (topic_pairs as) t := by
      simp [topic_pairs, scores_for, List.filter_append]
    have hone : scores_for (a.topics.map (fun u => (u, a.score))) t =
        if t ∈ a.topics then [a.score] else [] := by
      rw [scores_for, List.filter_map]
      have hco : ((fun p : String × ℚ => decide (p.1 = t)) ∘ fun u => (u, a.score))
          = fun u => decide (u = t) := rfl
      rw [hco, nodup_filter_eq _ _ hnda]
      by_cases h : t ∈ a.topics <;> simp [h]
    rw [happ, hone, ih hnd2, List.filter_cons]
    by_cases h : t ∈ a.topics <;> simp [h]

/-- C9: under the data-model invariant that an assignment's topic tags form a
set (no duplicates), `analyze_struggling_topics` returns exactly the topics
whose mean assignment score is strictly below 70, listed in first-occurrence
order across assignments; a topic is returned iff it is listed by some
assignment and its mean score is strictly below 70. -/
theorem struggling_topics_spec (student : Student)
    (hnd : ∀ a ∈ student.assignments, a.topics.Nodup) :
    analyze_struggling_topics student =
      (first_occurrences (student.assignments.flatMap Assignment.topics)).filter
        (fun t => (topic_scores_spec student t).sum /
          ((topic_scores_spec student t).length : ℚ) < 70) ∧
    ∀ t, t ∈ analyze_struggling_topics student ↔
      (∃ a ∈ student.assignments, t ∈ a.topics) ∧
      (topic_scores_spec student t).sum /
        ((topic_scores_spec student t).length : ℚ) < 70 := by
  have hmain : analyze_struggling_topics student =
      (first_occurrences (student.assignments.flatMap Assignment.topics)).filter
        (fun t => (topic_scores_spec student t).sum /
          ((topic_scores_spec student t).length : ℚ) < 70) := by
    rw [analyze_struggling_topics, topic_scores_of_eq_build, build_topic_scores_spec,
      List.filter_map, topic_pairs_fst, List.map_map]
    have hfst : (Prod.fst ∘ fun t : String => (t, scores_for (topic_pairs student.assignments) t))
        = id := rfl
    rw [hfst, List.map_id]
    apply List.filter_congr
    intro t ht
    have hco : ((fun p : String × List ℚ => decide (p.2.sum / (p.2.length : ℚ) < 70)) ∘
        fun t => (t, scores_for (topic_pairs student.assignments) t)) t
        = decide ((scores_for (topic_pairs student.assignments) t).sum /
            ((scores_for (topic_pairs student.assignments) t).length : ℚ) < 70) := rfl
    rw [hco, scores_for_topic_pairs _ _ hnd]
    rfl
  refine ⟨hmain, fun t => ?_⟩
  rw [hmain, List.mem_filter, mem_first_occurrences, List.mem_flatMap]
  simp

end StrugglingTopics

section ClaudeService

/-- Quiz question value (`models.QuizQuestion`); the options dict is an
association list from option label to option text. -/
structure QuizQuestion where
  question : String
  options : List (String × String)
  correct : String
  explanation : String
  topic : String
deriving DecidableEq, Repr

/-- The exceptions that can surface inside an attempt of
`ClaudeService.generate_quiz_questions`:
connection / rate-limit / status-coded errors from the `anthropic` client
(`rateLimit` carries the optional `retry_after` attribute), a plain
`anthropic.APIError` of no more specific class, a `json.JSONDecodeError`
from parsing the response body, a pydantic validation error from
constructing `QuizQuestion(**q)`, or any other exception. -/
inductive ApiErr where
  | connection
  | rateLimit (retry_after : Option Int)
  | status (status_code : Int)
  | apiOther
  | jsonDecode
  | validation
  | other
deriving DecidableEq, Repr

/-- Outcome of one outbound API call attempt (the remote service, response
body and schema check are modelled as an oracle indexed by attempt). -/
inductive AttemptOutcome where
  | success (questions : List QuizQuestion)
  | failure (e : ApiErr)
deriving DecidableEq, Repr

/-- `ClaudeAPIError`: user-facing message, underlying cause, optional
retry-after hint. -/
structure ClaudeAPIError where
  message : String
  original_error : Option ApiErr
  retry_after : Option Int
deriving DecidableEq, Repr

/-- `ClaudeService._calculate_backoff_delay`, with the random jitter made an
explicit parameter (the source draws it uniformly from
`[0, 0.1 * base_delay)`). -/
def calculate_backoff_delay (initial_retry_delay : ℚ) (attempt : Nat)
    (jitter : ℚ) : ℚ :=
  let base_delay := initial_retry_delay * 2 ^ attempt
  min (base_delay + jitter) 60

/-- `ClaudeService._get_user_friendly_error`. -/
def get_user_friendly_error : ApiErr → String
  | ApiErr.rateLimit _ =>
      "You\x27ve made too many requests. Please wait a moment and try again."
  | ApiErr.connection =>
      "Unable to connect to the AI service. Please check your internet connection and try again."
  | ApiErr.status c =>
      if c = 401 then "API authentication failed. Please check your API key configuration."
      else if c = 403 then "Access denied. Your API key may not have the required permissions."
      else if c = 404 then "The requested AI model is not available."
      else if c = 429 then "Service is experiencing high demand. Please try again in a moment."
      else if c = 500 then "The AI service encountered an internal error. Please try again later."
      else if c = 529 then "The AI service is temporarily overloaded. Please try again in a few minutes."
      else "The AI service returned an error (code " ++ toString c ++ "). Please try again."
  | ApiErr.jsonDecode =>
      "Received an invalid response from the AI service. Please try again."
  | ApiErr.apiOther =>
      "An unexpected error occurred with the AI service. Please try again."
  | ApiErr.validation =>
      "An unexpected error occurred while generating the quiz. Please try again."
  | ApiErr.other =>
      "An unexpected error occurred while generating the quiz. Please try again."

/-- `ClaudeService._should_retry`: refuse once the budget is exhausted, then
retry on connection errors, rate limits, and the listed status codes. -/
def should_retry (e : ApiErr) (attempt : Nat) (max_retries : Nat) : Bool :=
  if max_retries ≤ attempt then false
  else
    match e with
    | ApiErr.connection => true
    | ApiErr.rateLimit _ => true
    | ApiErr.status c => ([429, 500, 502, 503, 504, 529] : List Int).contains c
    | ApiErr.apiOther => false
    | ApiErr.jsonDecode => false
    | ApiErr.validation => false
    | ApiErr.other => false

/-- The error-category part of `_should_retry` (its answer when the retry
budget is not yet exhausted). -/
def retryable_category : ApiErr → Bool
  | ApiErr.connection => true
  | ApiErr.rateLimit _ => true
  | ApiErr.status c => ([429, 500, 502, 503, 504, 529] : List Int).contains c
  | ApiErr.apiOther => false
  | ApiErr.jsonDecode => false
  | ApiErr.validation => false
  | ApiErr.other => false

/-- `retry_after` extraction on the raise path: only rate-limit errors carry
the hint. -/
def retry_after_of : ApiErr → Option Int
  | ApiErr.rateLimit ra => ra
  | ApiErr.connection => none
  | ApiErr.status _ => none
  | ApiErr.apiOther => none
  | ApiErr.jsonDecode => none
  | ApiErr.validation => none
  | ApiErr.other => none

/-- The `for attempt in range(max_retries + 1)` loop body of
`ClaudeService.generate_quiz_questions`, with `fuel` many loop iterations
remaining and `attempt` the current index.  Returns the Python outcome
(`Except`) paired with the number of API call attempts performed.  The three
`except` clauses are rendered by the match on the attempt's error:
connection / rate-limit / status errors consult `_should_retry` and either
continue the loop or raise; `json.JSONDecodeError` and every other exception
raise immediately.  Exhausting the loop raises with the last observed
error. -/
def generate_attempts (max_retries : Nat) (outcome : Nat → AttemptOutcome) :
    Nat → Nat → Option ApiErr → Except ClaudeAPIError (List QuizQuestion) × Nat
  | 0, attempt, last_error =>
      (Except.error
        { message :=
            match last_error with
            | some e => get_user_friendly_error e
            | none => "Failed to generate quiz after multiple attempts."
          original_error := last_error
          retry_after := none },
        attempt)
  | fuel + 1, attempt, _ =>
      match outcome attempt with
      | AttemptOutcome.success qs => (Except.ok qs, attempt + 1)
      | AttemptOutcome.failure e =>
        match e with
        | ApiErr.connection | ApiErr.rateLimit _ | ApiErr.status _ =>
            if should_retry e attempt max_retries then
              generate_attempts max_retries outcome fuel (attempt + 1) (some e)
            else
              (Except.error
                { message := get_user_friendly_error e
                  original_error := some e
                  retry_after := retry_after_of e },
                attempt + 1)
        | ApiErr.jsonDecode =>
            (Except.error
              { message := get_user_friendly_error e
                original_error := some e
                retry_after := none },
              attempt + 1)
        | ApiErr.apiOther | ApiErr.validation | ApiErr.other =>
            (Except.error
              { message := get_user_friendly_error e
                original_error := some e
                retry_after := none },
              attempt + 1)

/-- `ClaudeService.generate_quiz_questions`: run the attempt loop for
`max_retries + 1` iterations starting at attempt 0 with no last error. -/
def generate_quiz_questions (max_retries : Nat) (outcome : Nat → AttemptOutcome) :
    Except ClaudeAPIError (List QuizQuestion) × Nat :=
  generate_attempts max_retries outcome (max_retries + 1) 0 none

lemma should_retry_eq (e : ApiErr) (attempt max_retries : Nat) :
    should_retry e attempt max_retries
      = (decide (attempt < max_retries) && retryable_category e) := by
  by_cases h : max_retries ≤ attempt
  · have hd : decide (attempt < max_retries) = false := by
      simp [Nat.not_lt.mpr h]
    cases e <;> simp [should_retry, if_pos h, hd, retryable_category]
  · have hd : decide (attempt < max_retries) = true := by
      simp [Nat.lt_of_not_le h]
    cases e <;> simp [should_retry, if_neg h, hd, retryable_category]

lemma generate_attempts_step (max_retries fuel attempt : Nat)
    (outcome : Nat → AttemptOutcome) (last : Option ApiErr) (e : ApiErr)
    (ho : outcome attempt = AttemptOutcome.failure e)
    (hc : retryable_category e = true)
    (hlt : attempt < max_retries) :
    generate_attempts max_retries outcome (fuel + 1) attempt last =
      generate_attempts max_retries outcome fuel (attempt + 1) (some e) := by
  have hs : should_retry e attempt max_retries = true := by
    rw [should_retry_eq, hc]
    simp [hlt]
  cases e <;> simp_all [generate_attempts, retryable_category]

lemma generate_attempts_final (max_retries attempt fuel : Nat)
    (outcome : Nat → AttemptOutcome) (last : Option ApiErr) (e : ApiErr)
    (ho : outcome attempt = AttemptOutcome.failure e)
    (hc : retryable_category e = true)
    (hge : max_retries ≤ attempt) :
    generate_attempts max_retries outcome (fuel + 1) attempt last =
      (Except.error
        { message := get_user_friendly_error e
          original_error := some e
          retry_after := retry_after_of e },
        attempt + 1) := by
  have hs : should_retry e attempt max_retries = false := by
    rw [should_retry_eq]
    simp [Nat.not_lt.mpr hge]
  cases e <;> simp_all [generate_attempts, retryable_category, retry_after_of]

/-- C1: when every attempt fails with an error whose category is retryable,
`generate_quiz_questions` performs exactly `max_retries + 1` attempts and
then raises a `ClaudeAPIError` carrying the last observed error. -/
theorem generate_retry_exhaustion (max_retries : Nat)
    (outcome : Nat → AttemptOutcome) (err : Nat → ApiErr)
    (hout : ∀ i, i ≤ max_retries → outcome i = AttemptOutcome.failure (err i))
    (hcat : ∀ i, i ≤ max_retries → retryable_category (err i) = true) :
    generate_quiz_questions max_retries outcome =
      (Except.error
        { message := get_user_friendly_error (err max_retries)
          original_error := some (err max_retries)
          retry_after := retry_after_of (err max_retries) },
        max_retries + 1) := by
  have key : ∀ (fuel attempt : Nat) (last : Option ApiErr),
      attempt + fuel = max_retries + 1 → attempt ≤ max_retries →
      generate_attempts max_retries outcome fuel attempt last =
        (Except.error
          { message := get_user_friendly_error (err max_retries)
            original_error := some (err max_retries)
            retry_after := retry_after_of (err max_retries) },
          max_retries + 1) := by
    intro fuel
    induction fuel with
    | zero =>
      intro attempt last h hle
      omega
    | succ fuel ih =>
      intro attempt last h hle
      by_cases hlt : attempt < max_retries
      · rw [generate_attempts_step max_retries fuel attempt outcome last
          (err attempt) (hout attempt hle) (hcat attempt hle) hlt]
        exact ih (attempt + 1) (some (err attempt)) (by omega) (by omega)
      · have ha : attempt = max_retries := by omega
        rw [generate_attempts_final max_retries attempt fuel outcome last
          (err attempt) (hout attempt hle) (hcat attempt hle) (le_of_eq ha.symm)]
        rw [ha]
  exact key (max_retries + 1) 0 none (by omega) (by omega)

/-- C1 witness: a persistently failing connection with `max_retries = 1`
yields exactly 2 attempts and the connection error as the cause. -/
theorem generate_retry_exhaustion_witness :
    generate_quiz_questions 1 (fun _ => AttemptOutcome.failure ApiErr.connection) =
      (Except.error
        { message := "Unable to connect to the AI service. Please check your internet connection and try again."
          original_error := some ApiErr.connection
          retry_after := none },
        2) :=
  generate_retry_exhaustion 1 (fun _ => AttemptOutcome.failure ApiErr.connection)
    (fun _ => ApiErr.connection) (fun _ _ => rfl) (fun _ _ => rfl)

/-- C3: as soon as an attempt's response body fails JSON parsing
(`jsonDecode`) or the question-schema check (`validation`), the loop raises
immediately after that attempt — `k + 1` total attempts — even when the
retry budget is not exhausted. -/
theorem malformed_response_fatal (max_retries k : Nat)
    (outcome : Nat → AttemptOutcome) (e : ApiErr) (hk : k ≤ max_retries)
    (hpre : ∀ i, i < k →
      ∃ e2, outcome i = AttemptOutcome.failure e2 ∧ retryable_category e2 = true)
    (he : e = ApiErr.jsonDecode ∨ e = ApiErr.validation)
    (ho : outcome k = AttemptOutcome.failure e) :
    generate_quiz_questions max_retries outcome =
      (Except.error
        { message := get_user_friendly_error e
          original_error := some e
          retry_after := none },
        k + 1) := by
  have key : ∀ (fuel attempt : Nat) (last : Option ApiErr),
      attempt + fuel = max_retries + 1 → attempt ≤ k →
      generate_attempts max_retries outcome fuel attempt last =
        (Except.error
          { message := get_user_friendly_error e
            original_error := some e
            retry_after := none },
          k + 1) := by
    intro fuel
    induction fuel with
    | zero =>
      intro attempt last h hle
      omega
    | succ fuel ih =>
      intro attempt last h hle
      rcases Nat.lt_or_ge attempt k with hlt | hge
      · obtain ⟨e2, ho2, hc2⟩ := hpre attempt hlt
        rw [generate_attempts_step max_retries fuel attempt outcome last e2 ho2 hc2
          (lt_of_lt_of_le hlt hk)]
        exact ih (attempt + 1) (some e2) (by omega) (by omega)
      · have ha : attempt = k := by omega
        subst ha
        rcases he with he | he <;> subst he <;> simp [generate_attempts, ho]
  exact key (max_retries + 1) 0 none (by omega) (by omega)

/-- C3 witness: a malformed JSON body on the very first attempt with budget
`max_retries = 3` fails after exactly one attempt. -/
theorem malformed_response_fatal_witness :
    generate_quiz_questions 3 (fun _ => AttemptOutcome.failure ApiErr.jsonDecode) =
      (Except.error
        { message := "Received an invalid response from the AI service. Please try again."
          original_error := some ApiErr.jsonDecode
          retry_after := none },
        1) :=
  malformed_response_fatal 3 0 (fun _ => AttemptOutcome.failure ApiErr.jsonDecode)
    ApiErr.jsonDecode (by omega) (fun i hi => absurd hi (Nat.not_lt_zero i))
    (Or.inl rfl) rfl

/-- C2 counterexample: with `initial_retry_delay = 1` the capped base delay
`min(d * 2^(k-1), 60)` (jitter 0) is NOT strictly increasing from retry 7 to
retry 8 — both equal the 60-second cap. -/
theorem backoff_cap_not_strictly_increasing :
    ¬ (calculate_backoff_delay 1 (7 - 1) 0 < calculate_backoff_delay 1 (8 - 1) 0) := by
  norm_num [calculate_backoff_delay, min_def]

/-- C2 (amended): for positive `initial_retry_delay` the capped base delay is
monotonically non-decreasing in the retry index and strictly increasing at
every step where the 60-second cap has not yet been reached, and the
returned delay (jitter included) never exceeds 60 seconds at any attempt
index. -/
theorem backoff_monotone_capped (d : ℚ) (hd : 0 < d) (k : Nat) (hk : 1 ≤ k) :
    calculate_backoff_delay d (k - 1) 0 ≤ calculate_backoff_delay d k 0 ∧
    (calculate_backoff_delay d (k - 1) 0 < 60 →
      calculate_backoff_delay d (k - 1) 0 < calculate_backoff_delay d k 0) ∧
    (∀ (a : Nat) (j : ℚ), calculate_backoff_delay d a j ≤ 60) := by
  have hcalc : ∀ (a : Nat) (j : ℚ),
      calculate_backoff_delay d a j = min (d * 2 ^ a + j) 60 := fun a j => rfl
  have hpow : d * 2 ^ (k - 1) < d * 2 ^ k := by
    obtain ⟨m, rfl⟩ : ∃ m, k = m + 1 := ⟨k - 1, by omega⟩
    have h2 : (2 : ℚ) ^ m < 2 ^ (m + 1) := by
      rw [pow_succ]
      nlinarith [pow_pos (by norm_num : (0:ℚ) < 2) m]
    simpa [Nat.add_sub_cancel] using mul_lt_mul_of_pos_left h2 hd
  refine ⟨?_, ?_, ?_⟩
  · rw [hcalc, hcalc, add_zero, add_zero]
    exact min_le_min (le_of_lt hpow) le_rfl
  · intro hlt
    rw [hcalc, add_zero] at hlt ⊢
    rw [hcalc, add_zero]
    have hb1 : d * 2 ^ (k - 1) < 60 := by
      by_contra hge
      push_neg at hge
      rw [min_eq_right hge] at hlt
      exact lt_irrefl _ hlt
    rw [min_eq_left (le_of_lt hb1)]
    exact lt_min hpow hb1
  · intro a j
    rw [hcalc]
    exact min_le_right _ _

/-- C2 witness: the amended statement at `d = 1`, `k = 1`, with the cap
checked at attempt index 9 and jitter 5. -/
theorem backoff_monotone_capped_witness :
    calculate_backoff_delay 1 0 0 < 60 ∧
    calculate_backoff_delay 1 0 0 < calculate_backoff_delay 1 1 0 ∧
    calculate_backoff_delay 1 9 5 ≤ 60 :=
  ⟨by norm_num [calculate_backoff_delay, min_def],
    (backoff_monotone_capped 1 (by norm_num) 1 (le_refl 1)).2.1
      (by norm_num [calculate_backoff_delay, min_def]),
    (backoff_monotone_capped 1 (by norm_num) 1 (le_refl 1)).2.2 9 5⟩

end ClaudeService

section FallbackGenerator

/-- Canonical pool for the `linear_equations` key; every entry is labelled
with the requested topic, as the Python constructors pass `topic=topic`. -/
def linear_equations_pool (topic : String) : List QuizQuestion :=
  [ { question := "Solve for x: 2x + 5 = 13"
      options := [("A", "x = 3"), ("B", "x = 4"), ("C", "x = 5"), ("D", "x = 6")]
      correct := "B"
      explanation := "Subtract 5 from both sides: 2x = 8. Then divide by 2: x = 4."
      topic := topic },
    { question := "What is the solution to: 3x - 7 = 14?"
      options := [("A", "x = 5"), ("B", "x = 6"), ("C", "x = 7"), ("D", "x = 8")]
      correct := "C"
      explanation := "Add 7 to both sides: 3x = 21. Then divide by 3: x = 7."
      topic := topic } ]

/-- Canonical pool for the `quadratic_equations` key. -/
def quadratic_equations_pool (topic : String) : List QuizQuestion :=
  [ { question := "What are the solutions to x² - 5x + 6 = 0?"
      options := [("A", "x = 1, 6"), ("B", "x = 2, 3"), ("C", "x = -2, -3"), ("D", "x = 1, 5")]
      correct := "B"
      explanation := "Factor to (x-2)(x-3) = 0. Solutions are x = 2 and x = 3."
      topic := topic } ]

/-- Canonical pool for the `polynomials` key. -/
def polynomials_pool (topic : String) : List QuizQuestion :=
  [ { question := "Simplify: (2x + 3)(x - 4)"
      options := [("A", "2x² - 5x - 12"), ("B", "2x² - 8x - 12"), ("C", "2x² + 5x + 12"), ("D", "2x² + 11x - 12")]
      correct := "A"
      explanation := "Use FOIL: 2x² - 8x + 3x - 12 = 2x² - 5x - 12."
      topic := topic } ]

/-- Canonical pool for the `factoring` key. -/
def factoring_pool (topic : String) : List QuizQuestion :=
  [ { question := "Factor: x² + 7x + 12"
      options := [("A", "(x + 3)(x + 4)"), ("B", "(x + 2)(x + 6)"), ("C", "(x + 1)(x + 12)"), ("D", "(x - 3)(x - 4)")]
      correct := "A"
      explanation := "Find two numbers that multiply to 12 and add to 7: 3 and 4. So (x + 3)(x + 4)."
      topic := topic } ]

/-- Dict literal `fallback_questions` of
`FallbackQuizGenerator.generate_fallback_questions`. -/
def fallback_question_pool (topic : String) : List (String × List QuizQuestion) :=
  [ ("linear_equations", linear_equations_pool topic),
    ("quadratic_equations", quadratic_equations_pool topic),
    ("polynomials", polynomials_pool topic),
    ("factoring", factoring_pool topic) ]

/-- Lookup `fallback_questions.get(topic, fallback_questions["linear_equations"])`:
the topic's pool, defaulting to the linear-equations pool. -/
def fallback_pool_for (topic : String) : List QuizQuestion :=
  ((fallback_question_pool topic).lookup topic).getD (linear_equations_pool topic)

/-- Placeholder for out-of-range indexing; never reached, since every pool
is non-empty and the index is always `i % len`. -/
def fallback_default : QuizQuestion :=
  { question := "", options := [], correct := "", explanation := "", topic := "" }

/-- Body of `FallbackQuizGenerator.generate_fallback_questions`: collect
`questions[i % len(questions)]` for `i in range(num_questions)`. -/
def generate_fallback_questions (topic : String) (num_questions : Nat) :
    List QuizQuestion :=
  let questions := fallback_pool_for topic
  (List.range num_questions).map
    (fun i => questions.getD (i % questions.length) fallback_default)

lemma fallback_pool_for_eq (topic : String) :
    fallback_pool_for topic =
      if topic = "linear_equations" then linear_equations_pool topic
      else if topic = "quadratic_equations" then quadratic_equations_pool topic
      else if topic = "polynomials" then polynomials_pool topic
      else if topic = "factoring" then factoring_pool topic
      else linear_equations_pool topic := by
  rw [fallback_pool_for, fallback_question_pool]
  by_cases h1 : topic = "linear_equations" <;>
    by_cases h2 : topic = "quadratic_equations" <;>
      by_cases h3 : topic = "polynomials" <;>
        by_cases h4 : topic = "factoring" <;>
          first
            | (have hb1 : (topic == "linear_equations") = false :=
                beq_eq_false_iff_ne.mpr h1
               have hb2 : (topic == "quadratic_equations") = false :=
                beq_eq_false_iff_ne.mpr h2
               have hb3 : (topic == "polynomials") = false :=
                beq_eq_false_iff_ne.mpr h3
               have hb4 : (topic == "factoring") = false :=
                beq_eq_false_iff_ne.mpr h4
               simp [List.lookup, hb1, hb2, hb3, hb4, h1, h2, h3, h4])
            | simp_all [List.lookup, beq_iff_eq]

lemma pool_topic_linear (topic : String) :
    ∀ q ∈ linear_equations_pool topic, q.topic = topic := by
  intro q hq
  simp only [linear_equations_pool, List.mem_cons, List.not_mem_nil, or_false] at hq
  rcases hq with h | h <;> subst h <;> rfl

lemma pool_topic_quadratic (topic : String) :
    ∀ q ∈ quadratic_equations_pool topic, q.topic = topic := by
  intro q hq
  simp only [quadratic_equations_pool, List.mem_cons, List.not_mem_nil, or_false] at hq
  subst hq
  rfl

lemma pool_topic_polynomials (topic : String) :
    ∀ q ∈ polynomials_pool topic, q.topic = topic := by
  intro q hq
  simp only [polynomials_pool, List.mem_cons, List.not_mem_nil, or_false] at hq
  subst hq
  rfl

lemma pool_topic_factoring (topic : String) :
    ∀ q ∈ factoring_pool topic, q.topic = topic := by
  intro q hq
  simp only [factoring_pool, List.mem_cons, List.not_mem_nil, or_false] at hq
  subst hq
  rfl

lemma fallback_pool_topic (topic : String) :
    (∀ q ∈ fallback_pool_for topic, q.topic = topic) ∧
    fallback_pool_for topic ≠ [] := by
  rw [fallback_pool_for_eq]
  split_ifs
  · exact ⟨pool_topic_linear topic, by simp [linear_equations_pool]⟩
  · exact ⟨pool_topic_quadratic topic, by simp [quadratic_equations_pool]⟩
  · exact ⟨pool_topic_polynomials topic, by simp [polynomials_pool]⟩
  · exact ⟨pool_topic_factoring topic, by simp [factoring_pool]⟩
  · exact ⟨pool_topic_linear topic, by simp [linear_equations_pool]⟩

/-- C4: the fallback generator always returns exactly `num_questions`
questions, the `i`-th being `pool[i % len(pool)]` of the topic's pool, and
an unknown topic is served by the default `linear_equations` pool. -/
theorem generate_fallback_count_cycle (topic : String) (n : Nat) :
    (generate_fallback_questions topic n).length = n ∧
    (∀ i, i < n →
      (generate_fallback_questions topic n).getD i fallback_default =
        (fallback_pool_for topic).getD
          (i % (fallback_pool_for topic).length) fallback_default) ∧
    (topic ∉ (["linear_equations", "quadratic_equations", "polynomials",
        "factoring"] : List String) →
      fallback_pool_for topic = linear_equations_pool topic) := by
  refine ⟨by simp [generate_fallback_questions], ?_, ?_⟩
  · intro i hi
    simp [generate_fallback_questions, List.getD_eq_getElem?_getD,
      List.getElem?_map, List.getElem?_range, hi]
  · intro hnot
    simp only [List.mem_cons, List.not_mem_nil, or_false, not_or] at hnot
    rw [fallback_pool_for_eq]
    simp [hnot.1, hnot.2.1, hnot.2.2.1, hnot.2.2.2]

/-- C4 witness: an unknown topic with `n = 3` (more than the default pool's
2 entries). -/
theorem generate_fallback_count_cycle_witness :
    (generate_fallback_questions "radicals" 3).length = 3 ∧
    (generate_fallback_questions "radicals" 3).getD 2 fallback_default =
      (fallback_pool_for "radicals").getD
        (2 % (fallback_pool_for "radicals").length) fallback_default ∧
    fallback_pool_for "radicals" = linear_equations_pool "radicals" := by
  obtain ⟨h1, h2, h3⟩ := generate_fallback_count_cycle "radicals" 3
  exact ⟨h1, h2 2 (by norm_num), h3 (by simp)⟩

/-- C10: every question returned by the fallback generator carries the
requested topic in its `topic` field, also when the default pool serves an
unknown topic. -/
theorem fallback_questions_topic_label (topic : String) (n : Nat)
    (q : QuizQuestion) (hq : q ∈ generate_fallback_questions topic n) :
    q.topic = topic := by
  have hpool := fallback_pool_topic topic
  simp only [generate_fallback_questions, List.mem_map, List.mem_range] at hq
  obtain ⟨i, hi, rfl⟩ := hq
  have hlen : 0 < (fallback_pool_for topic).length :=
    List.length_pos.mpr hpool.2
  have hbound : i % (fallback_pool_for topic).length <
      (fallback_pool_for topic).length := Nat.mod_lt _ hlen
  rw [List.getD_eq_getElem?_getD, List.getElem?_eq_getElem hbound]
  exact hpool.1 _ (List.getElem_mem hbound)

/-- C10 witness: the first default-pool question served for the unknown
topic `radicals` is labelled `radicals`. -/
theorem fallback_questions_topic_label_witness :
    ((fallback_pool_for "radicals").getD
      (0 % (fallback_pool_for "radicals").length) fallback_default).topic
      = "radicals" :=
  fallback_questions_topic_label "radicals" 1 _
    (by simp [generate_fallback_questions])

end FallbackGenerator

section Orchestrator

/-- Quiz payload (`models.QuizResponse`). -/
structure QuizResponse where
  quiz_id : String
  student_id : String
  topic : String
  questions : List QuizQuestion
deriving DecidableEq, Repr

/-- Outcome of the live-generation phase seen by `main.generate_quiz`: the
service is not configured (no credential ⇒ `use_fallback` /
`claude_service is None`), or the awaited call succeeded, or it raised a
`ClaudeAPIError`. -/
inductive ClaudeOutcome where
  | notConfigured
  | success (questions : List QuizQuestion)
  | apiFailure (e : ClaudeAPIError)
deriving DecidableEq, Repr

/-- Character-level model of Python `str.title()`: a character is uppercased
when the previous character is not alphabetic, lowercased otherwise. -/
def py_title_aux : List Char → Bool → List Char
  | [], _ => []
  | c :: cs, prev_alpha =>
    (if prev_alpha then c.toLower else c.toUpper) :: py_title_aux cs c.isAlpha

/-- Python `s.replace("_", " ").title()` as used for the display topic. -/
def py_title (s : String) : String :=
  String.mk (py_title_aux s.data false)

/-- Body of `main.generate_quiz` after the student lookup: try live
generation when configured, fall back otherwise, and build the quiz id with
the `-fallback` suffix exactly when fallback content was used. -/
def generate_quiz (student_id topic : String) (num_questions : Nat)
    (claude : ClaudeOutcome) : QuizResponse :=
  let topic_display := py_title (topic.replace "_" " ")
  let questions_used :=
    match claude with
    | ClaudeOutcome.success qs => (qs, false)
    | ClaudeOutcome.apiFailure _ =>
        (generate_fallback_questions topic num_questions, true)
    | ClaudeOutcome.notConfigured =>
        (generate_fallback_questions topic num_questions, true)
  let quiz_id := "quiz-" ++ student_id ++ "-" ++ topic
  let quiz_id := if questions_used.2 then quiz_id ++ "-fallback" else quiz_id
  { quiz_id := quiz_id
    student_id := student_id
    topic := topic_display
    questions := questions_used.1 }

/-- C5: the quiz identifier is `quiz-{studentId}-{topic}` on live success
and that string with `-fallback` appended when fallback content was used;
with no configured credential the identifier carries the `-fallback` suffix
and the question count equals the requested count. -/
theorem quiz_id_format (student_id topic : String) (n : Nat)
    (claude : ClaudeOutcome) :
    (∀ qs, claude = ClaudeOutcome.success qs →
      (generate_quiz student_id topic n claude).quiz_id =
        "quiz-" ++ student_id ++ "-" ++ topic) ∧
    ((claude = ClaudeOutcome.notConfigured ∨
        ∃ e, claude = ClaudeOutcome.apiFailure e) →
      (generate_quiz student_id topic n claude).quiz_id =
        ("quiz-" ++ student_id ++ "-" ++ topic) ++ "-fallback") ∧
    (claude = ClaudeOutcome.notConfigured →
      (generate_quiz student_id topic n claude).quiz_id =
        ("quiz-" ++ student_id ++ "-" ++ topic) ++ "-fallback" ∧
      (generate_quiz student_id topic n claude).questions.length = n) := by
  refine ⟨?_, ?_, ?_⟩
  · rintro qs rfl
    rfl
  · rintro (rfl | ⟨e, rfl⟩) <;> rfl
  · rintro rfl
    exact ⟨rfl, by simp [generate_quiz, generate_fallback_questions]⟩

/-- C5 witness: no configured credential for student `s1`, topic
`algebra_basics`, two questions requested. -/
theorem quiz_id_format_witness :
    (generate_quiz "s1" "algebra_basics" 2 ClaudeOutcome.notConfigured).quiz_id =
      ("quiz-" ++ "s1" ++ "-" ++ "algebra_basics") ++ "-fallback" ∧
    (generate_quiz "s1" "algebra_basics" 2 ClaudeOutcome.notConfigured).questions.length = 2 :=
  (quiz_id_format "s1" "algebra_basics" 2 ClaudeOutcome.notConfigured).2.2 rfl

end Orchestrator

section SampleInputs

/-- Concrete assignment used by the witnesses. -/
def sampleAssignment1 : Assignment :=
  { id := "a1"
    name := "Homework 1"
    score := 80
    attempts := 1
    time_spent_minutes := 50
    topics := ["linear_equations"]
    submitted_at := 1 }

/-- Concrete assignment used by the witnesses. -/
def sampleAssignment2 : Assignment :=
  { id := "a2"
    name := "Homework 2"
    score := 60
    attempts := 2
    time_spent_minutes := 70
    topics := ["linear_equations", "factoring"]
    submitted_at := 2 }

/-- Concrete student with two assignments, used by the witnesses. -/
def sampleStudent : Student :=
  { id := "s1"
    name := "Sample Student"
    email := "sample"
    course_id := "math-101"
    last_active := 10
    risk_level := RiskLevel.LOW
    risk_score := 0
    risk_reasons := []
    assignments := [sampleAssignment1, sampleAssignment2]
    struggling_topics := [] }

/-- Concrete student with no assignments, used by the witnesses. -/
def sampleStudentEmpty : Student :=
  { id := "s2"
    name := "Empty Student"
    email := "empty"
    course_id := "math-101"
    last_active := 10
    risk_level := RiskLevel.LOW
    risk_score := 0
    risk_reasons := []
    assignments := []
    struggling_topics := [] }

/-- C7 witness: the no-assignments student scores 0 with no reasons. -/
theorem risk_score_bounds_witness :
    calculate_risk_score sampleStudentEmpty 0 = (0, []) :=
  (risk_score_bounds sampleStudentEmpty 0).2.2 rfl

/-- C8 witness: with only 2 assignments the declining flag never fires. -/
theorem declining_flag_iff_witness :
    "declining_grades" ∉ (calculate_risk_score sampleStudent 12).2 :=
  (declining_flag_iff sampleStudent 12).2 (by decide)

/-- C9 witness: the struggling-topics characterization at the concrete
student, whose `linear_equations` mean is exactly 70 (excluded) and whose
`factoring` mean is 60 (included). -/
theorem struggling_topics_spec_witness :
    analyze_struggling_topics sampleStudent =
      (first_occurrences (sampleStudent.assignments.flatMap Assignment.topics)).filter
        (fun t => (topic_scores_spec sampleStudent t).sum /
          ((topic_scores_spec sampleStudent t).length : ℚ) < 70) :=
  (struggling_topics_spec sampleStudent (by decide)).1

end SampleInputs

end Backend
